import Mathlib

/-!
Verification development for the zip2rep representative-lookup pipelines.

The definitions below are a shallow embedding of the TypeScript sources
`src/src/services/usa.ts` and `src/frontend/src/services/canada.ts`:
pure string manipulation is translated directly, JavaScript nullable
strings become `Option String` (with `none` for both `null` and
`undefined`), JavaScript truthiness is made explicit, insertion-ordered
`Map`/`Set` objects become association lists, and the effectful lookup
functions are parameterised by the outcomes of their network fetches,
returning the list of source calls they issued as an explicit trace.
-/

namespace Zip2Rep

/-- jsTruthy models JavaScript truthiness for a nullable string: `null`,
`undefined` and the empty string are falsy, every other string is truthy. -/
def jsTruthy : Option String → Bool
  | none => false
  | some s => s ≠ ""

/-- jsOr models the JavaScript expression `a || b` on nullable strings:
it yields `a` when `a` is truthy and `b` (as written, possibly itself
null or empty) otherwise. -/
def jsOr (a b : Option String) : Option String := if jsTruthy a then a else b

/-- jsStrOr models `a || dflt` where `dflt` is a plain string and the
result is used as a plain string. -/
def jsStrOr (a : Option String) (dflt : String) : String :=
  match a with
  | some s => if s = "" then dflt else s
  | none => dflt

/-- jsTemplate models interpolating a possibly-`undefined` value into a
JavaScript template literal, where `undefined` prints as "undefined". -/
def jsTemplate (a : Option String) : String := a.getD "undefined"

/-- strLower models `.toLowerCase()`, character by character. -/
def strLower (s : String) : String := String.mk (s.data.map Char.toLower)

/-- strTrim models `.trim()`: strip leading and trailing whitespace. -/
def strTrim (s : String) : String :=
  String.mk (((s.data.dropWhile Char.isWhitespace).reverse.dropWhile
    Char.isWhitespace).reverse)

/-- strSplitOnCharGo accumulates the current field in reverse while
walking the characters. -/
def strSplitOnCharGo (sep : Char) : List Char → List Char → List String
  | [], cur => [String.mk cur.reverse]
  | c :: rest, cur =>
      if c = sep then String.mk cur.reverse :: strSplitOnCharGo sep rest []
      else strSplitOnCharGo sep rest (c :: cur)

/-- strSplitOnChar models `.split(sep)` for a one-character separator
(the only kind the sources use): the list of fields between occurrences
of `sep`, empty fields preserved. -/
def strSplitOnChar (sep : Char) (s : String) : List String :=
  strSplitOnCharGo sep s.data []

/-- isPrefixList decides whether the first list is a prefix of the
second. -/
def isPrefixList : List Char → List Char → Bool
  | [], _ => true
  | _ :: _, [] => false
  | a :: as, b :: bs => a = b && isPrefixList as bs

/-- containsSubList decides whether `sub` occurs contiguously in `l`. -/
def containsSubList (l sub : List Char) : Bool :=
  if isPrefixList sub l then true
  else
    match l with
    | [] => false
    | _ :: rest => containsSubList rest sub

/-- strContainsSub models `.includes(sub)`: substring occurrence. -/
def strContainsSub (s sub : String) : Bool := containsSubList s.data sub.data

/-- assocGet models `Map.get` / object property lookup on an
insertion-ordered association list: the value at the first matching key. -/
def assocGet {α : Type} (m : List (String × α)) (k : String) : Option α :=
  (m.find? (fun p => p.1 = k)).map Prod.snd

/-- assocSet models `Map.set`: replace the value at an existing key in
place, else append the binding at the end (JavaScript `Map` keeps
insertion order). -/
def assocSet {α : Type} (m : List (String × α)) (k : String) (v : α) :
    List (String × α) :=
  match m with
  | [] => [(k, v)]
  | (k', v') :: rest =>
      if k' = k then (k', v) :: rest else (k', v') :: assocSet rest k v

/-- setAdd models `Set.add` on a JavaScript `Set` of strings: append the
element unless it is already present (insertion order preserved). -/
def setAdd (s : List String) (x : String) : List String :=
  if x ∈ s then s else s ++ [x]

/-- ContactInfo is the record shape shared by both pipelines
(`src/types`): `name` and `role` are required strings, every other field
is optional; an absent or `null` field is `none`. -/
structure ContactInfo where
  name : String
  role : String
  district : Option String := none
  riding : Option String := none
  party : Option String := none
  email : Option String := none
  website : Option String := none
  phone : Option String := none
  address : Option String := none
deriving DecidableEq, Repr

/-- validateUSZipCode embeds `validateUSZipCode` from
src/src/services/usa.ts (lines 453-476): `zipCode.replace(/[^\d]/g, '')`
keeps exactly the decimal digits of the input, the first five of them
form the candidate code, which must be all-numeric and not "00000". -/
def validateUSZipCode (zipCode : String) : Bool × String :=
  let normalized := String.mk (zipCode.data.filter Char.isDigit)
  if normalized.length < 5 then (false, normalized)
  else
    let zip5 := String.mk (normalized.data.take 5)
    if ¬ (zip5.data ≠ [] ∧ zip5.data.all Char.isDigit) then (false, normalized)
    else if zip5 = "00000" then (false, normalized)
    else (true, zip5)

/-- isAsciiUpper is the character class `[A-Z]`. -/
def isAsciiUpper (c : Char) : Bool := 'A' ≤ c ∧ c ≤ 'Z'

/-- canadaNormalize is the normalization step of
`validateCanadianPostalCode` (src/frontend/src/services/canada.ts line
10): `postalCode.replace(/[\s-]/g, '').toUpperCase()` drops whitespace
and hyphens and uppercases the remaining characters. -/
def canadaNormalize (postalCode : String) : String :=
  String.mk ((postalCode.data.filter (fun c => ¬ (c.isWhitespace ∨ c = '-'))).map
    Char.toUpper)

/-- validateCanadianPostalCode embeds `validateCanadianPostalCode` from
src/frontend/src/services/canada.ts (lines 8-37): after normalization
the six characters must alternate
letter-digit-letter-digit-letter-digit with the documented letter
exclusions at positions 0, 2 and 4. -/
def validateCanadianPostalCode (postalCode : String) : Bool × String :=
  let normalized := canadaNormalize postalCode
  if normalized.length ≠ 6 then (false, normalized)
  else
    match normalized.data with
    | [c0, c1, c2, c3, c4, c5] =>
        if ¬ (isAsciiUpper c0 ∧ c1.isDigit ∧ isAsciiUpper c2 ∧ c3.isDigit ∧
              isAsciiUpper c4 ∧ c5.isDigit) then (false, normalized)
        else if c0 ∈ ['D', 'F', 'I', 'O', 'Q', 'U', 'W', 'Z'] then (false, normalized)
        else if c2 ∈ ['D', 'F', 'I', 'O', 'Q', 'U'] ∨
                c4 ∈ ['D', 'F', 'I', 'O', 'Q', 'U'] then (false, normalized)
        else (true, normalized)
    | _ => (false, normalized)

/-- CSVLegislator is one parsed row of the bundled
`legislators-current.csv` snapshot (usa.ts lines 10-25). -/
structure CSVLegislator where
  last_name : String := ""
  first_name : String := ""
  middle_name : String := ""
  suffix : String := ""
  nickname : String := ""
  full_name : String := ""
  type : String := "rep"
  state : String := ""
  district : String := "0"
  party : String := ""
  url : String := ""
  address : String := ""
  phone : String := ""
  contact_form : String := ""
deriving DecidableEq, Repr

/-- RepresentativeLookup is the CSV index keyed by "STATE-DISTRICT",
kept as an insertion-ordered association list (usa.ts lines 27-29). -/
abbrev RepresentativeLookup := List (String × List CSVLegislator)

/-- getColumnIndex models `header.findIndex(col => col.toLowerCase() ===
name.toLowerCase())` (usa.ts lines 42-44); -1 when the header is absent. -/
def getColumnIndex (header : List String) (name : String) : Int :=
  match header.findIdx? (fun col => strLower col = strLower name) with
  | some i => (i : Int)
  | none => -1

/-- parseCSVLineGo is the character loop of the simple CSV field
splitter (usa.ts lines 67-82): quotes toggle `inQuotes`, commas outside
quotes end a field, everything else is appended to the current field. -/
def parseCSVLineGo : List Char → String → Bool → List String → List String
  | [], cur, _, acc => acc ++ [cur]
  | ch :: rest, cur, inQuotes, acc =>
      if ch = '"' then parseCSVLineGo rest cur (!inQuotes) acc
      else if ch = ',' ∧ inQuotes = false then parseCSVLineGo rest "" inQuotes (acc ++ [cur])
      else parseCSVLineGo rest (cur.push ch) inQuotes acc

/-- parseCSVLine splits one data row into fields, tolerating quoted
fields that contain the separator. -/
def parseCSVLine (line : String) : List String := parseCSVLineGo line.data "" false []

/-- getFieldInt models `fields[idx]` with a possibly negative index: a
negative or out-of-range index yields `undefined`. -/
def getFieldInt (fields : List String) (i : Int) : Option String :=
  if i < 0 then none else fields[i.toNat]?

/-- fieldTrimOr models `fields[idx]?.trim() || dflt`. -/
def fieldTrimOr (fields : List String) (i : Int) (dflt : String) : String :=
  jsStrOr ((getFieldInt fields i).map strTrim) dflt

/-- HeaderIdx bundles the fourteen column indices resolved from the
header row by name (usa.ts lines 46-59). -/
structure HeaderIdx where
  lastNameIdx : Int
  firstNameIdx : Int
  middleNameIdx : Int
  suffixIdx : Int
  nicknameIdx : Int
  fullNameIdx : Int
  typeIdx : Int
  stateIdx : Int
  districtIdx : Int
  partyIdx : Int
  urlIdx : Int
  addressIdx : Int
  phoneIdx : Int
  contactFormIdx : Int

/-- headerIdxOf resolves all column indices from the header fields. -/
def headerIdxOf (header : List String) : HeaderIdx where
  lastNameIdx := getColumnIndex header "last_name"
  firstNameIdx := getColumnIndex header "first_name"
  middleNameIdx := getColumnIndex header "middle_name"
  suffixIdx := getColumnIndex header "suffix"
  nicknameIdx := getColumnIndex header "nickname"
  fullNameIdx := getColumnIndex header "full_name"
  typeIdx := getColumnIndex header "type"
  stateIdx := getColumnIndex header "state"
  districtIdx := getColumnIndex header "district"
  partyIdx := getColumnIndex header "party"
  urlIdx := getColumnIndex header "url"
  addressIdx := getColumnIndex header "address"
  phoneIdx := getColumnIndex header "phone"
  contactFormIdx := getColumnIndex header "contact_form"

/-- lookupAdd models `if (!lookup[key]) lookup[key] = [];
lookup[key].push(legislator)` on the insertion-ordered index. -/
def lookupAdd (m : RepresentativeLookup) (k : String) (leg : CSVLegislator) :
    RepresentativeLookup :=
  match assocGet m k with
  | some lst => assocSet m k (lst ++ [leg])
  | none => m ++ [(k, [leg])]

/-- parseLegislatorsRow is the body of the data-row loop of
parseLegislatorsCSV (usa.ts lines 62-123): blank lines and short rows
are skipped, only rows whose type field is "rep" and whose state is
non-empty are indexed, the district defaults to "0". -/
def parseLegislatorsRow (h : HeaderIdx) (lookup : RepresentativeLookup)
    (rawLine : String) : RepresentativeLookup :=
  let line := strTrim rawLine
  if line = "" then lookup
  else
    let fields := parseCSVLine line
    let maxIdx := max h.typeIdx (max h.stateIdx (max h.districtIdx (max h.partyIdx
      (max h.urlIdx (max h.addressIdx h.phoneIdx)))))
    if (fields.length : Int) < maxIdx + 1 then lookup
    else
      let ty := (getFieldInt fields h.typeIdx).map (fun s => strTrim (strLower s))
      if ty ≠ some "rep" then lookup
      else
        let state := fieldTrimOr fields h.stateIdx ""
        let district := fieldTrimOr fields h.districtIdx "0"
        let districtNum := if district = "" ∨ district = "0" then "0" else district
        if state = "" then lookup
        else
          let lookupKey := state ++ "-" ++ districtNum
          let legislator : CSVLegislator :=
            { last_name := fieldTrimOr fields h.lastNameIdx ""
              first_name := fieldTrimOr fields h.firstNameIdx ""
              middle_name := fieldTrimOr fields h.middleNameIdx ""
              suffix := fieldTrimOr fields h.suffixIdx ""
              nickname := fieldTrimOr fields h.nicknameIdx ""
              full_name := fieldTrimOr fields h.fullNameIdx ""
              type := "rep"
              state := state
              district := districtNum
              party := fieldTrimOr fields h.partyIdx ""
              url := fieldTrimOr fields h.urlIdx ""
              address := fieldTrimOr fields h.addressIdx ""
              phone := fieldTrimOr fields h.phoneIdx ""
              contact_form := fieldTrimOr fields h.contactFormIdx "" }
          lookupAdd lookup lookupKey legislator

/-- parseLegislatorsCSV embeds `parseLegislatorsCSV` (usa.ts lines
32-126): split on newlines, resolve column positions from the header by
name, then fold the row parser over the data lines. -/
def parseLegislatorsCSV (legislatorsCSV : String) : RepresentativeLookup :=
  let lines := strSplitOnChar '\n' legislatorsCSV
  if lines.length < 2 then []
  else
    match lines with
    | [] => []
    | headerLine :: dataLines =>
        let header := strSplitOnChar ',' headerLine
        let h := headerIdxOf header
        dataLines.foldl (parseLegislatorsRow h) []

/-- headerCols is the header field list parseLegislatorsCSV resolves
its column positions from: the first line of the dataset, split on
commas (usa.ts line 41). -/
def headerCols (legislatorsCSV : String) : List String :=
  match strSplitOnChar '\n' legislatorsCSV with
  | [] => []
  | headerLine :: _ => strSplitOnChar ',' headerLine

/-- csvLegislatorToContactInfo embeds `csvLegislatorToContactInfo`
(usa.ts lines 139-157): the display name prefers `full_name`, falling
back to the assembled name parts; district "0" renders as at-large;
empty optional fields become null. -/
def csvLegislatorToContactInfo (legislator : CSVLegislator) : ContactInfo :=
  let assembled := strTrim (legislator.first_name ++ " " ++
    (if legislator.middle_name ≠ "" then legislator.middle_name ++ " " else "") ++
    legislator.last_name ++
    (if legislator.suffix ≠ "" then " " ++ legislator.suffix else ""))
  let name := if legislator.full_name ≠ "" then legislator.full_name else assembled
  let districtStr := if legislator.district = "0"
    then legislator.state ++ "-At-Large"
    else legislator.state ++ "-" ++ legislator.district
  { name := name
    role := "Member of the House of Representatives"
    district := some districtStr
    party := jsOr (some legislator.party) none
    email := none
    website := jsOr (some legislator.url) (jsOr (some legislator.contact_form) none)
    phone := jsOr (some legislator.phone) none
    address := jsOr (some legislator.address) none }

/-- HGCache is the module-level `houseGovZipCache` map from ZIP code to
cached candidate list (usa.ts line 160). -/
abbrev HGCache := List (String × List ContactInfo)

/-- lookupHouseGovByZip models `lookupHouseGovByZip` (usa.ts lines
163-449) with the network fetch and HTML extraction abstracted by
`scraped`, the candidate list the body would produce for this ZIP code
(the body catches every error and never throws). It returns the result
list, the updated cache, and whether the directory fetch was issued:
a cache hit returns the stored list without fetching (lines 165-167),
and only a non-empty result is stored back (lines 444-446). -/
def lookupHouseGovByZip (cache : HGCache) (zipCode : String)
    (scraped : List ContactInfo) : List ContactInfo × HGCache × Bool :=
  match assocGet cache zipCode with
  | some v => (v, cache, false)
  | none =>
      if scraped ≠ [] then (scraped, assocSet cache zipCode scraped, true)
      else (scraped, cache, true)

/-- collapseWsGo folds over the characters replacing each maximal run of
whitespace by one space. -/
def collapseWsGo : List Char → Bool → List Char
  | [], _ => []
  | c :: rest, prevWs =>
      if c.isWhitespace then
        if prevWs then collapseWsGo rest true
        else ' ' :: collapseWsGo rest true
      else c :: collapseWsGo rest false

/-- collapseWs is the effect of `.replace(/\s+/g, ' ')`: every run of
whitespace becomes a single space. -/
def collapseWs (s : String) : String := String.mk (collapseWsGo s.data false)

/-- normNameKey is name equivalence up to case and whitespace variance:
lowercase, then collapse whitespace runs. -/
def normNameKey (s : String) : String := collapseWs (strLower s)

/-- finalKey is the deduplication key of the final pass of
lookupHouseGovByZip (usa.ts line 358): the lowercased name and the
district joined by "-". The name is lowercased but its whitespace is
not normalized here. -/
def finalKey (rep : ContactInfo) : String :=
  strLower rep.name ++ "-" ++ jsTemplate rep.district

/-- finalDedupGo walks the candidates keeping the first occurrence of
each finalKey. -/
def finalDedupGo : List ContactInfo → List String → List ContactInfo → List ContactInfo
  | [], _, acc => acc
  | r :: rest, seen, acc =>
      if finalKey r ∈ seen then finalDedupGo rest seen acc
      else finalDedupGo rest (setAdd seen (finalKey r)) (acc ++ [r])

/-- finalDedup embeds the re-sort-and-deduplicate pass of
lookupHouseGovByZip (usa.ts lines 353-366). -/
def finalDedup (reps : List ContactInfo) : List ContactInfo := finalDedupGo reps [] []

/-- ApiEmails is `apiEmailsByDistrict` (usa.ts line 607): an
insertion-ordered map from "STATE-DISTRICT" to the email collected by
the structured API. -/
abbrev ApiEmails := List (String × String)

/-- apiEmailGet models `houseGovRep.district ?
apiEmailsByDistrict.get(houseGovRep.district) : null` (usa.ts line 710). -/
def apiEmailGet (apiEmails : ApiEmails) (district : Option String) : Option String :=
  if jsTruthy district then assocGet apiEmails (district.getD "") else none

/-- csvNameMatch embeds the CSV-entry matching predicate of the
enrichment loop (usa.ts lines 689-704): lowercase and
whitespace-normalize both names, split into tokens longer than one
character, require equal last tokens, and require the first tokens to
be equal or either whole name to contain the other's first token
(an absent token interpolates as the string "undefined", as in
JavaScript). -/
def csvNameMatch (houseGovName : String) (csvRep : CSVLegislator) : Bool :=
  let csvName := collapseWs (strLower csvRep.full_name)
  let houseName := collapseWs (strLower houseGovName)
  let csvParts := (strSplitOnChar ' ' csvName).filter (fun p => p.length > 1)
  let houseParts := (strSplitOnChar ' ' houseName).filter (fun p => p.length > 1)
  let csvLastName := csvParts.getLast?
  let houseLastName := houseParts.getLast?
  decide (csvLastName = houseLastName) &&
    (decide (csvParts.head? = houseParts.head?) ||
     strContainsSub csvName (jsTemplate houseParts.head?) ||
     strContainsSub houseName (jsTemplate csvParts.head?))

/-- csvKeyOfDistrict models `const [state, district] =
houseGovRep.district.split('-')` followed by rebuilding the CSV key as
the template string of the first two parts (usa.ts lines 684-685); a
missing second part interpolates as "undefined". -/
def csvKeyOfDistrict (d : String) : String :=
  let parts := strSplitOnChar '-' d
  jsTemplate parts.head? ++ "-" ++ jsTemplate parts[1]?

/-- enrichOne is the per-candidate body of the enrichment loop (usa.ts
lines 680-730): when the candidate has a truthy district whose
"STATE-DISTRICT" key is present in the CSV index and a CSV entry
matches by name, merge — house.gov name, CSV contact details, email
preferring API then CSV then house.gov; when the key is present but no
entry matches, only a truthy API email is applied; otherwise the
candidate passes through unchanged. -/
def enrichOne (csvLookup : RepresentativeLookup) (apiEmails : ApiEmails)
    (houseGovRep : ContactInfo) : ContactInfo :=
  if jsTruthy houseGovRep.district then
    let d := houseGovRep.district.getD ""
    let csvKey := csvKeyOfDistrict d
    match assocGet csvLookup csvKey with
    | some csvList =>
        match csvList.find? (csvNameMatch houseGovRep.name) with
        | some csvMatch =>
            let csvContact := csvLegislatorToContactInfo csvMatch
            let apiEmail := apiEmailGet apiEmails houseGovRep.district
            { csvContact with
              name := houseGovRep.name
              website := jsOr houseGovRep.website csvContact.website
              district := jsOr houseGovRep.district csvContact.district
              email := jsOr apiEmail (jsOr csvContact.email (jsOr houseGovRep.email none))
              phone := jsOr csvContact.phone (jsOr houseGovRep.phone none)
              address := jsOr csvContact.address (jsOr houseGovRep.address none) }
        | none =>
            let apiEmail := apiEmailGet apiEmails houseGovRep.district
            if jsTruthy apiEmail then { houseGovRep with email := apiEmail }
            else houseGovRep
    | none => houseGovRep
  else houseGovRep

/-- repKeyOf is the enrichment deduplication key (usa.ts line 673):
`houseGovRep.district || houseGovRep.name.toLowerCase()` — the district
label alone when truthy, the lowercased name otherwise. -/
def repKeyOf (rep : ContactInfo) : String :=
  if jsTruthy rep.district then rep.district.getD "" else strLower rep.name

/-- enrichRepsGo folds the candidates into the `enrichedRepsSet` map,
skipping any candidate whose key is already present (usa.ts lines
671-733). -/
def enrichRepsGo (csvLookup : RepresentativeLookup) (apiEmails : ApiEmails) :
    List ContactInfo → List (String × ContactInfo) → List (String × ContactInfo)
  | [], acc => acc
  | rep :: rest, acc =>
      let repKey := repKeyOf rep
      if (assocGet acc repKey).isSome then enrichRepsGo csvLookup apiEmails rest acc
      else enrichRepsGo csvLookup apiEmails rest
        (assocSet acc repKey (enrichOne csvLookup apiEmails rep))

/-- enrichReps embeds the enrichment branch of
lookupUSARepresentativeWithDetails (usa.ts lines 666-736): fold the
house.gov candidates through the keyed map and emit its values in
insertion order. -/
def enrichReps (houseGovReps : List ContactInfo) (csvLookup : RepresentativeLookup)
    (apiEmails : ApiEmails) : List ContactInfo :=
  (enrichRepsGo csvLookup apiEmails houseGovReps []).map Prod.snd

/-- ApiRep is one loosely-typed entry of the Whoismyrepresentative
response, with both capitalizations of each field the code reads
(usa.ts lines 609-662). -/
structure ApiRep where
  office : Option String := none
  Office : Option String := none
  district : Option String := none
  District : Option String := none
  state : Option String := none
  State : Option String := none
  title : Option String := none
  Title : Option String := none
  email : Option String := none
  Email : Option String := none
  email_address : Option String := none
  contact_email : Option String := none
deriving Repr

/-- processApiRep is the body of the structured-API entry loop (usa.ts
lines 609-663): senators are skipped, an entry with a usable district,
a lower-chamber title, or merely a state is classified as a
representative, its "STATE-DISTRICT" key is added to the found set, and
a usable email (containing "@") is recorded for that key. -/
def processApiRep (acc : List String × ApiEmails) (rep : ApiRep) :
    List String × ApiEmails :=
  let (found, emails) := acc
  let officeField := strLower (jsStrOr (jsOr rep.office rep.Office) "")
  let district := strTrim (jsStrOr (jsOr rep.district rep.District) "")
  let state := jsStrOr (jsOr rep.state rep.State) ""
  let email := jsOr rep.email (jsOr rep.Email (jsOr rep.email_address
    (jsOr rep.contact_email none)))
  let isSenator := strContainsSub officeField "senator" ||
    strContainsSub officeField "senate" ||
    strLower (jsStrOr rep.title "") = "senator" ||
    strLower (jsStrOr rep.Title "") = "senator"
  if isSenator then acc
  else
    let isRepByTitle := strContainsSub officeField "representative" ||
      strContainsSub officeField "house" ||
      strLower (jsStrOr rep.title "") = "representative" ||
      strLower (jsStrOr rep.Title "") = "representative"
    let classified : Bool × String :=
      if district ≠ "" ∧ ¬ (strLower district ∈ ["", "none", "n/a"]) then (true, district)
      else if isRepByTitle ∧ state ≠ "" then (true, "0")
      else if state ≠ "" ∧ ¬ isSenator then (true, "0")
      else (false, district)
    let isRepresentative := classified.1
    let districtNum := classified.2
    if isRepresentative ∧ state ≠ "" ∧ districtNum ≠ "" then
      let key := state ++ "-" ++ districtNum
      let found' := setAdd found key
      let emails' := if jsTruthy email ∧ strContainsSub (email.getD "") "@"
        then assocSet emails key (email.getD "") else emails
      (found', emails')
    else acc

/-- processApiReps folds the structured-API entries into the found
state-district set and the per-district email map. -/
def processApiReps (repsData : List ApiRep) : List String × ApiEmails :=
  repsData.foldl processApiRep ([], [])

/-- FallbackRep is one entry of the 5 Calls fallback response (usa.ts
lines 795-813). -/
structure FallbackRep where
  chamber : Option String := none
  district : Option String := none
  state : Option String := none
deriving Repr

/-- processFallbackRep is the body of the fallback entry loop (usa.ts
lines 795-813): only entries whose chamber field is "house" and whose
state is non-empty contribute a "STATE-DISTRICT" key, with district
defaulting to "0". -/
def processFallbackRep (found : List String) (rep : FallbackRep) : List String :=
  let chamber := strLower (jsStrOr rep.chamber "")
  if chamber ≠ "house" then found
  else
    let district := jsStrOr rep.district ""
    let state := jsStrOr rep.state ""
    if state ≠ "" then
      let districtNum := if district = "" then "0" else district
      setAdd found (state ++ "-" ++ districtNum)
    else found

/-- isNetworkError is the network/CORS-class error classifier of the
catch block (usa.ts lines 773-778). -/
def isNetworkError (message name : String) : Bool :=
  strContainsSub message "Failed to fetch" ||
  strContainsSub message "NetworkError" ||
  strContainsSub message "CORS" ||
  name = "TypeError" ||
  strContainsSub message "network"

/-- StructuredOutcome is the observable result of the structured-API
stage: a parsed entry list (after container-key resolution, usa.ts
lines 597-603), a 404, another HTTP error, or a raised error carrying
its message and name. -/
inductive StructuredOutcome
  | ok (repsData : List ApiRep)
  | notFound
  | httpError (status : Nat) (statusText : String)
  | thrown (message name : String)

/-- FallbackOutcome is the observable result of the 5 Calls fallback
fetch: a parsed `reps` list, a non-ok response (silently ignored by the
code), or a raised error. -/
inductive FallbackOutcome
  | ok (reps : List FallbackRep)
  | httpFail
  | thrown (message : String)

/-- SourceCall labels one network interaction of the US pipeline. -/
inductive SourceCall
  | houseGovFetch
  | structuredApi
  | fallbackApi
deriving DecidableEq, Repr

/-- LookupResult is the success shape of
lookupUSARepresentativeWithDetails (usa.ts lines 478-482);
`apiErrors` is present only when non-empty. -/
structure LookupResult where
  representatives : List ContactInfo
  apiErrors : Option (List String) := none
deriving DecidableEq, Repr

/-- UsaWorld packages the outcomes of the network interactions one call
of the US pipeline can make. -/
structure UsaWorld where
  scraped : List ContactInfo
  api : StructuredOutcome
  fallback : FallbackOutcome

/-- usInvalidMsg is the InvalidFormat rejection message (usa.ts lines
494-497), carrying the raw input and the expected format description. -/
def usInvalidMsg (zipCode : String) : String :=
  "Invalid US ZIP code format: '" ++ zipCode ++
  "'. Expected format: 5 digits (e.g., 90210) or 5+4 format (e.g., 90210-1234)"

/-- usNoRepMsg is the terminal NoRepresentativeFound message (usa.ts
lines 872-877), embedding the accumulated source errors. -/
def usNoRepMsg (normalizedZip : String) (apiErrors : List String) : String :=
  "Unable to find representatives for ZIP code '" ++ normalizedZip ++
  "'. Could not determine congressional district from APIs. API errors: " ++
  (if apiErrors ≠ [] then String.intercalate "; " apiErrors else "Unknown error") ++
  ". Please verify the ZIP code is correct and try again."

/-- errsOpt models `apiErrors.length > 0 ? apiErrors : undefined`. -/
def errsOpt (apiErrors : List String) : Option (List String) :=
  if apiErrors ≠ [] then some apiErrors else none

/-- csvEmitFrom models emitting every CSV legislator listed under each
found "STATE-DISTRICT" key (usa.ts lines 749-756): `csvLookup[key] ||
[]`, each converted by csvLegislatorToContactInfo. -/
def csvEmitFrom (found : List String) (csvLookup : RepresentativeLookup) :
    List ContactInfo :=
  (found.map (fun key => ((assocGet csvLookup key).getD []).map
    csvLegislatorToContactInfo)).flatten

/-- usaAfterTry is the code after the try/catch of the US pipeline
(usa.ts lines 844-877): a last CSV emission from any found districts,
then the raw house.gov candidates, then success or the
NoRepresentativeFound error. -/
def usaAfterTry (normalizedZip : String) (csvLookup : RepresentativeLookup)
    (houseGovReps representatives : List ContactInfo)
    (found : List String) (apiErrors : List String) :
    Except String LookupResult :=
  let reps1 := if found ≠ [] ∧ representatives = []
    then representatives ++ csvEmitFrom found csvLookup else representatives
  let reps2 := if houseGovReps ≠ [] ∧ reps1 = [] then reps1 ++ houseGovReps else reps1
  if reps2 ≠ [] then .ok { representatives := reps2, apiErrors := errsOpt apiErrors }
  else .error (usNoRepMsg normalizedZip apiErrors)

/-- lookupUSARepresentativeWithDetails embeds the US pipeline (usa.ts
lines 489-878) over an explicit world of fetch outcomes, returning the
result, the trace of source calls issued, and the updated house.gov
cache. The 5-second race of the house.gov step is not modelled (the
directory lookup is taken to settle first); the structured-API stage is
always issued for a valid ZIP, and the fallback stage only from its
network-error catch branch. -/
def lookupUSARepresentativeWithDetails (zipCode : String) (cache : HGCache)
    (csvLookup : RepresentativeLookup) (w : UsaWorld) :
    Except String LookupResult × List SourceCall × HGCache :=
  let v := validateUSZipCode zipCode
  if v.1 = false then (.error (usInvalidMsg zipCode), [], cache)
  else
    let normalizedZip := v.2
    let step1 := lookupHouseGovByZip cache normalizedZip w.scraped
    let houseGovReps := step1.1
    let cache' := step1.2.1
    let trace0 := if step1.2.2 then [SourceCall.houseGovFetch] else []
    let trace1 := trace0 ++ [SourceCall.structuredApi]
    match w.api with
    | .ok repsData =>
        let processed := processApiReps repsData
        let foundStateDistricts := processed.1
        let apiEmails := processed.2
        let repsA := if houseGovReps ≠ []
          then enrichReps houseGovReps csvLookup apiEmails else []
        if houseGovReps ≠ [] ∧ repsA ≠ [] then
          (.ok { representatives := repsA, apiErrors := none }, trace1, cache')
        else
          let repsB := if foundStateDistricts ≠ []
            then repsA ++ csvEmitFrom foundStateDistricts csvLookup else repsA
          if foundStateDistricts ≠ [] ∧ repsB ≠ [] then
            (.ok { representatives := repsB, apiErrors := none }, trace1, cache')
          else
            (usaAfterTry normalizedZip csvLookup houseGovReps repsB
              foundStateDistricts [], trace1, cache')
    | .notFound =>
        (usaAfterTry normalizedZip csvLookup houseGovReps [] []
          ["ZIP code '" ++ normalizedZip ++ "' not found in API"], trace1, cache')
    | .httpError status statusText =>
        (usaAfterTry normalizedZip csvLookup houseGovReps [] []
          ["Error from Whoismyrepresentative API: " ++ toString status ++ " " ++
            statusText], trace1, cache')
    | .thrown message name =>
        if isNetworkError message name then
          let trace2 := trace1 ++ [SourceCall.fallbackApi]
          match w.fallback with
          | .ok fbReps =>
              let found' := fbReps.foldl processFallbackRep []
              let repsC := if found' ≠ [] then csvEmitFrom found' csvLookup else []
              if found' ≠ [] ∧ repsC ≠ [] then
                (.ok { representatives := repsC, apiErrors := none }, trace2, cache')
              else
                (usaAfterTry normalizedZip csvLookup houseGovReps repsC found' [],
                  trace2, cache')
          | .httpFail =>
              (usaAfterTry normalizedZip csvLookup houseGovReps [] [] [], trace2, cache')
          | .thrown fmsg =>
              (usaAfterTry normalizedZip csvLookup houseGovReps [] []
                ["5 Calls API fallback failed: " ++ fmsg], trace2, cache')
        else
          (usaAfterTry normalizedZip csvLookup houseGovReps [] []
            ["API error: " ++ message], trace1, cache')

/-- MPDetails is the first object of an OpenParliament members response
(canada.ts lines 107-111). -/
structure MPDetails where
  name : Option String := none
  riding : Option String := none
  party : Option String := none
  email : Option String := none
  website : Option String := none
  phone : Option String := none
deriving Repr

/-- CanRep is one loosely-typed representative entry of the Represent
API response (canada.ts lines 79-130). -/
structure CanRep where
  elected_office : Option String := none
  level : Option String := none
  district_name : Option String := none
  riding_name : Option String := none
  name : Option String := none
  party_name : Option String := none
  email : Option String := none
  url : Option String := none
  website : Option String := none
  tel : Option String := none
  phone : Option String := none
  office : Option String := none
  postal : Option String := none
deriving Repr

/-- isFederalMP is the federal-representative filter of the main Canada
loop (canada.ts lines 80-87). -/
def isFederalMP (rep : CanRep) : Bool :=
  let repType := strLower (jsStrOr rep.elected_office "")
  let level := strLower (jsStrOr rep.level "")
  strContainsSub repType "member of parliament" || level = "federal" ||
    strContainsSub repType "mp"

/-- canadaContactOf builds the emitted contact record of the main
Canada loop (canada.ts lines 118-128), preferring OpenParliament data
when available; note the riding field is always assigned a string,
empty when nothing supplied one. -/
def canadaContactOf (rep : CanRep) (mpDetails : Option MPDetails) : ContactInfo :=
  let ridingName := jsStrOr (jsOr rep.district_name rep.riding_name) ""
  let repName := jsStrOr rep.name ""
  let party := jsStrOr rep.party_name ""
  let partyStr := if party ≠ "" then party
    else jsStrOr (mpDetails.bind (fun m => m.party)) ""
  { name := if repName ≠ "" then repName
      else jsStrOr (mpDetails.bind (fun m => m.name)) "MP Information"
    role := "Member of Parliament"
    riding := some (if ridingName ≠ "" then ridingName
      else jsStrOr (mpDetails.bind (fun m => m.riding)) "")
    party := if partyStr ≠ "" then some partyStr else none
    email := jsOr rep.email (jsOr (mpDetails.bind (fun m => m.email)) none)
    website := jsOr rep.url (jsOr rep.website
      (jsOr (mpDetails.bind (fun m => m.website)) none))
    phone := jsOr rep.tel (jsOr rep.phone
      (jsOr (mpDetails.bind (fun m => m.phone)) none))
    address := jsOr rep.office (jsOr rep.postal none) }

/-- CanCall labels one network interaction of the Canada pipeline. -/
inductive CanCall
  | representApi
  | openParliament (riding : String)
  | boundaryApi (boundaryId : String)
deriving DecidableEq, Repr

/-- canadaMainLoop is the per-representative loop of the ok branch
(canada.ts lines 79-131): each federal entry with a truthy riding name
triggers one OpenParliament detail fetch (whose failure is ignored,
modelled by `op` returning none), then a contact record is emitted. -/
def canadaMainLoop (repsData : List CanRep) (op : String → Option MPDetails) :
    List ContactInfo × List CanCall :=
  repsData.foldl (fun acc rep =>
    if isFederalMP rep then
      let ridingName := jsStrOr (jsOr rep.district_name rep.riding_name) ""
      let calls := if ridingName ≠ "" then [CanCall.openParliament ridingName] else []
      let mpDetails := if ridingName ≠ "" then op ridingName else none
      (acc.1 ++ [canadaContactOf rep mpDetails], acc.2 ++ calls)
    else acc) ([], [])

/-- Boundary is one entry of `boundaries_centroid` (canada.ts lines
139-142). -/
structure Boundary where
  boundary_set_name : Option String := none
deriving Repr

/-- RepresentData is the parsed Represent API response body consumed by
the ok branch (canada.ts lines 67-76, 139). -/
structure RepresentData where
  representatives_centroid : List CanRep := []
  representatives_concordance : List CanRep := []
  boundaries_centroid : List Boundary := []

/-- RepresentOutcome is the observable result of the Represent API
fetch (canada.ts lines 59-190). -/
inductive RepresentOutcome
  | ok (data : RepresentData)
  | notFound
  | httpError (status : Nat) (statusText : String)
  | thrown (message : String)

/-- CanWorld packages the outcomes of the network interactions one call
of the Canada pipeline can make; `op` and `boundary` return none when
their fetch fails or yields nothing usable, since the code ignores
those errors. -/
structure CanWorld where
  represent : RepresentOutcome
  op : String → Option MPDetails
  boundary : String → Option (List CanRep)

/-- canInvalidMsg is the InvalidFormat rejection message (canada.ts
lines 44-47). -/
def canInvalidMsg (postalCode : String) : String :=
  "Invalid Canadian postal code format: '" ++ postalCode ++
  "'. Expected format: Letter-Digit-Letter Digit-Letter-Digit (e.g., K1A 0A6, M5H 2N2)"

/-- canNotFoundMsg is the 404 message (canada.ts lines 185-188). -/
def canNotFoundMsg (formattedPostal : String) : String :=
  "Postal code '" ++ formattedPostal ++
  "' not found. Please verify the postal code is correct."

/-- canUnavailableMsg is the wrapped transport-failure message
(canada.ts lines 196-199). -/
def canUnavailableMsg (formattedPostal errMsg : String) : String :=
  "Unable to lookup postal code '" ++ formattedPostal ++
  "'. Represent API may be unavailable. Error: " ++ errMsg

/-- canNoMPMsg is the empty-result message (canada.ts lines 204-207). -/
def canNoMPMsg (formattedPostal : String) : String :=
  "No MP found for postal code '" ++ formattedPostal ++
  "'. Please verify the postal code is correct and try again."

/-- isBoundaryFederalMP is the filter of the boundary fallback loop
(canada.ts lines 157-161): note it compares `rep.level` to "federal"
strictly, without lowercasing. -/
def isBoundaryFederalMP (rep : CanRep) : Bool :=
  let repType := strLower (jsStrOr rep.elected_office "")
  strContainsSub repType "member of parliament" || rep.level = some "federal"

/-- boundaryContactOf is the contact record of the boundary fallback
loop (canada.ts lines 162-170); it carries no address field. -/
def boundaryContactOf (rep : CanRep) : ContactInfo :=
  { name := jsStrOr rep.name ""
    role := "Member of Parliament"
    riding := some (jsStrOr rep.district_name "")
    party := jsOr rep.party_name none
    email := jsOr rep.email none
    website := jsOr rep.url none
    phone := jsOr rep.tel none }

/-- canadaBoundaryPhase is the alternative-endpoint branch (canada.ts
lines 138-183): when the first boundary has a truthy set name, one
boundary fetch is issued; its federal entries are emitted if any. -/
def canadaBoundaryPhase (data : RepresentData) (w : CanWorld) :
    Option (List ContactInfo) × List CanCall :=
  match data.boundaries_centroid.head? with
  | some b =>
      if jsTruthy b.boundary_set_name then
        let boundaryId := b.boundary_set_name.getD ""
        match w.boundary boundaryId with
        | some boundaryRepsData =>
            let contacts := (boundaryRepsData.filter isBoundaryFederalMP).map
              boundaryContactOf
            (if contacts ≠ [] then some contacts else none,
              [CanCall.boundaryApi boundaryId])
        | none => (none, [CanCall.boundaryApi boundaryId])
      else (none, [])
  | none => (none, [])

/-- lookupCanadaMP embeds the Canada pipeline (canada.ts lines 39-217)
over an explicit world of fetch outcomes, returning the result and the
trace of source calls issued. Inner-catch rewrapping and the outer
rethrow are applied to the error messages exactly as in the source. -/
def lookupCanadaMP (postalCode : String) (w : CanWorld) :
    Except String (List ContactInfo) × List CanCall :=
  let v := validateCanadianPostalCode postalCode
  if v.1 = false then (.error (canInvalidMsg postalCode), [])
  else
    let normalizedPostal := v.2
    let formattedPostal := String.mk (normalizedPostal.data.take 3) ++ " " ++
      String.mk (normalizedPostal.data.drop 3)
    let trace1 := [CanCall.representApi]
    match w.represent with
    | .ok data =>
        let repsData := data.representatives_centroid ++
          data.representatives_concordance
        let main := canadaMainLoop repsData w.op
        if main.1 ≠ [] then (.ok main.1, trace1 ++ main.2)
        else
          let bp := canadaBoundaryPhase data w
          match bp.1 with
          | some contacts => (.ok contacts, trace1 ++ main.2 ++ bp.2)
          | none => (.error (canNoMPMsg formattedPostal), trace1 ++ main.2 ++ bp.2)
    | .notFound => (.error (canNotFoundMsg formattedPostal), trace1)
    | .httpError status statusText =>
        (.error (canUnavailableMsg formattedPostal
          ("Error from Represent API: " ++ toString status ++ " " ++ statusText)),
          trace1)
    | .thrown message =>
        if strContainsSub message "not found" then (.error message, trace1)
        else (.error (canUnavailableMsg formattedPostal message), trace1)

/-! Helper lemmas. -/

theorem assocGet_assocSet {α : Type} (m : List (String × α)) (k : String) (v : α) :
    assocGet (assocSet m k v) k = some v := by
  induction m with
  | nil => simp [assocSet, assocGet, List.find?]
  | cons p rest ih =>
      obtain ⟨k', v'⟩ := p
      by_cases h : k' = k
      · simp [assocSet, assocGet, h, List.find?]
      · simp only [assocSet, h, if_false]
        simpa [assocGet, List.find?, h] using ih

theorem jsTruthy_some_ne {s : String} (h : s ≠ "") : jsTruthy (some s) = true := by
  simp [jsTruthy, h]

/-! C6 — the directory-source cache. -/

/-- C6: a directory lookup that produces a non-empty candidate list
stores it in the per-process cache, so a second lookup of the same ZIP
returns the identical list without re-issuing the directory fetch
(fetched-flag false, whatever the scrape would now produce); an empty
result (failure or no match) leaves the cache unchanged. -/
theorem housegov_cache_idempotence (cache : HGCache) (zipCode : String)
    (scraped : List ContactInfo) (h : assocGet cache zipCode = none) :
    (scraped ≠ [] →
      lookupHouseGovByZip cache zipCode scraped =
        (scraped, assocSet cache zipCode scraped, true) ∧
      (∀ scraped2, lookupHouseGovByZip (assocSet cache zipCode scraped) zipCode scraped2 =
        (scraped, assocSet cache zipCode scraped, false))) ∧
    (scraped = [] → lookupHouseGovByZip cache zipCode scraped = ([], cache, true)) := by
  constructor
  · intro hne
    constructor
    · simp [lookupHouseGovByZip, h, hne]
    · intro s2
      simp [lookupHouseGovByZip, assocGet_assocSet]
  · intro he
    subst he
    simp [lookupHouseGovByZip, h]

/-- C6 witness: with "90210" freshly cached, a second lookup returns
the cached record without fetching. -/
theorem housegov_cache_idempotence_app :
    lookupHouseGovByZip [("90210",
        [({ name := "Scott Peters",
            role := "Member of the House of Representatives",
            district := some "CA-50" } : ContactInfo)])] "90210" [] =
      ([({ name := "Scott Peters",
           role := "Member of the House of Representatives",
           district := some "CA-50" } : ContactInfo)],
       [("90210",
        [({ name := "Scott Peters",
            role := "Member of the House of Representatives",
            district := some "CA-50" } : ContactInfo)])], false) := by
  have h := (housegov_cache_idempotence [] "90210"
    [({ name := "Scott Peters",
        role := "Member of the House of Representatives",
        district := some "CA-50" } : ContactInfo)] rfl).1 (by decide)
  simpa using h.2 []

/-! C10 — enrichment deduplication is keyed by the district alone. -/

/-- C10: in the enrichment branch the deduplication map is keyed by the
district label alone when it is truthy, so of two candidates with the
same district only the first is emitted (whatever their names), and the
key falls back to the lowercased name only when the district is absent. -/
theorem enrich_dedup_by_district (csvLookup : RepresentativeLookup)
    (apiEmails : ApiEmails) (r1 r2 : ContactInfo) (d : String)
    (h1 : r1.district = some d) (h2 : r2.district = some d) (hd : d ≠ "") :
    enrichReps [r1, r2] csvLookup apiEmails = [enrichOne csvLookup apiEmails r1] ∧
    (∀ r : ContactInfo, r.district = none → repKeyOf r = strLower r.name) := by
  constructor
  · have k1 : repKeyOf r1 = d := by
      simp [repKeyOf, h1, jsTruthy_some_ne hd]
    have k2 : repKeyOf r2 = d := by
      simp [repKeyOf, h2, jsTruthy_some_ne hd]
    simp [enrichReps, enrichRepsGo, k1, k2, assocGet, assocSet, List.find?]
  · intro r hr
    simp [repKeyOf, hr, jsTruthy]

/-- C10 witness: two differently named candidates for CA-50 collapse to
the first one. -/
theorem enrich_dedup_by_district_app :
    enrichReps
      [({ name := "Scott Peters", role := "Member of the House of Representatives",
          district := some "CA-50" } : ContactInfo),
       ({ name := "Juan Vargas", role := "Member of the House of Representatives",
          district := some "CA-50" } : ContactInfo)] [] [] =
      [enrichOne [] []
        ({ name := "Scott Peters", role := "Member of the House of Representatives",
           district := some "CA-50" } : ContactInfo)] :=
  (enrich_dedup_by_district [] [] _ _ "CA-50" rfl rfl (by decide)).1

/-! C3 — deduplication by (name, subdivision). -/

/-- c3r1 and c3r2 are two candidates for CA-50 whose names differ only
in case and internal whitespace. -/
def c3r1 : ContactInfo :=
  { name := "Scott  Peters", role := "Member of the House of Representatives",
    district := some "CA-50", party := some "Democrat" }

/-- c3r2 is the single-spaced lowercase variant of c3r1's name. -/
def c3r2 : ContactInfo :=
  { name := "scott peters", role := "Member of the House of Representatives",
    district := some "CA-50", party := some "Democrat" }

/-- C3 counterexample: the two candidates agree on subdivision and on
name up to case and whitespace variance (the claim's own example pair),
yet the merged output of the final deduplication pass keeps both
records, because the dedup key lowercases the name without collapsing
its whitespace. -/
theorem usa_dedup_whitespace_counterexample :
    normNameKey c3r1.name = normNameKey c3r2.name ∧
    c3r1.district = c3r2.district ∧
    finalDedup [c3r1, c3r2] = [c3r1, c3r2] := by
  refine ⟨by decide, by decide, by decide⟩

/-- C3 amended: the final deduplication key is the lowercased name plus
the district, so the merged output never repeats a key, and two records
whose names differ only by letter case (with equal districts) collapse
to the first; names that differ in internal whitespace are not
collapsed (see the counterexample). -/
theorem usa_dedup_case_insensitive :
    (∀ reps : List ContactInfo, ((finalDedup reps).map finalKey).Nodup) ∧
    (∀ r1 r2 : ContactInfo, strLower r1.name = strLower r2.name →
      jsTemplate r1.district = jsTemplate r2.district →
      finalDedup [r1, r2] = [r1]) := by
  constructor
  · intro reps
    have main : ∀ (l : List ContactInfo) (seen : List String)
        (acc : List ContactInfo), ((acc.map finalKey).Nodup) →
        (∀ a ∈ acc, finalKey a ∈ seen) →
        (((finalDedupGo l seen acc).map finalKey).Nodup) := by
      intro l
      induction l with
      | nil =>
          intro seen acc h1 _
          simpa [finalDedupGo] using h1
      | cons r rest ih =>
          intro seen acc h1 h2
          by_cases hk : finalKey r ∈ seen
          · simpa [finalDedupGo, hk] using ih seen acc h1 h2
          · simp only [finalDedupGo, hk, if_false]
            apply ih (setAdd seen (finalKey r)) (acc ++ [r])
            · simp only [List.map_append, List.map_cons, List.map_nil]
              refine List.Nodup.append h1 (by simp) ?_
              intro x hx hx'
              simp only [List.mem_singleton] at hx'
              subst hx'
              obtain ⟨a, ha, hak⟩ := List.mem_map.mp hx
              exact hk (hak ▸ h2 a ha)
            · intro a ha
              rcases List.mem_append.mp ha with ha' | ha'
              · have := h2 a ha'
                simp [setAdd]
                split
                · exact this
                · exact List.mem_append.mpr (Or.inl this)
              · simp only [List.mem_singleton] at ha'
                subst ha'
                simp [setAdd, hk]
    exact main reps [] [] (by simp) (by simp)
  · intro r1 r2 h1 h2
    have hkey : finalKey r2 = finalKey r1 := by
      simp [finalKey, h1, h2]
    simp [finalDedup, finalDedupGo, setAdd, hkey]

/-- C3 witness: case-only variants collapse to one record. -/
theorem usa_dedup_case_insensitive_app :
    finalDedup
      [({ name := "SCOTT PETERS", role := "Member of the House of Representatives",
          district := some "CA-50" } : ContactInfo),
       ({ name := "scott peters", role := "Member of the House of Representatives",
          district := some "CA-50" } : ContactInfo)] =
      [({ name := "SCOTT PETERS", role := "Member of the House of Representatives",
          district := some "CA-50" } : ContactInfo)] :=
  usa_dedup_case_insensitive.2 _ _ (by decide) (by decide)

/-! C4 — InvalidFormat rejects before any network call. -/

/-- C4: an input failing the jurisdiction's structural validation makes
the resolution reject with the InvalidFormat message — which embeds the
offending raw input between quotes, followed by the expected format
description — and the trace of issued network calls is empty, for both
the US and the Canada pipeline. -/
theorem invalid_format_no_network_call :
    (∀ (zipCode : String) (cache : HGCache) (csvLookup : RepresentativeLookup)
       (w : UsaWorld), (validateUSZipCode zipCode).1 = false →
       lookupUSARepresentativeWithDetails zipCode cache csvLookup w =
         (.error (usInvalidMsg zipCode), [], cache)) ∧
    (∀ (postalCode : String) (w : CanWorld),
       (validateCanadianPostalCode postalCode).1 = false →
       lookupCanadaMP postalCode w = (.error (canInvalidMsg postalCode), [])) := by
  constructor
  · intro z cache csvLookup w h
    simp [lookupUSARepresentativeWithDetails, h]
  · intro pc w h
    simp [lookupCanadaMP, h]

/-- C4 witness: the too-short US input "123" and the malformed Canadian
input "12345" are rejected with their InvalidFormat messages and an
empty call trace. -/
theorem invalid_format_no_network_call_app :
    lookupUSARepresentativeWithDetails "123" [] []
        ⟨[], .notFound, .httpFail⟩ = (.error (usInvalidMsg "123"), [], []) ∧
    lookupCanadaMP "12345" ⟨.notFound, fun _ => none, fun _ => none⟩ =
      (.error (canInvalidMsg "12345"), []) :=
  ⟨invalid_format_no_network_call.1 "123" [] [] _ (by decide),
   invalid_format_no_network_call.2 "12345" _ (by decide)⟩

/-! C1 — name from the directory source, contact details from the
reference entry. -/

/-- C1: when the directory candidate's subdivision key is present in
the reference index and a reference entry matches the candidate's name,
the emitted record keeps the directory source's displayed name while
its phone and address come from the reference entry (whenever the
reference entry supplies them). -/
theorem usa_enrichment_name_precedence (csvLookup : RepresentativeLookup)
    (apiEmails : ApiEmails) (rep : ContactInfo) (d : String)
    (csvList : List CSVLegislator) (csvMatch : CSVLegislator)
    (hd : rep.district = some d) (hne : d ≠ "")
    (hlook : assocGet csvLookup (csvKeyOfDistrict d) = some csvList)
    (hfind : csvList.find? (csvNameMatch rep.name) = some csvMatch) :
    enrichReps [rep] csvLookup apiEmails = [enrichOne csvLookup apiEmails rep] ∧
    (enrichOne csvLookup apiEmails rep).name = rep.name ∧
    (csvMatch.phone ≠ "" →
      (enrichOne csvLookup apiEmails rep).phone = some csvMatch.phone) ∧
    (csvMatch.address ≠ "" →
      (enrichOne csvLookup apiEmails rep).address = some csvMatch.address) := by
  have htr : jsTruthy rep.district = true := by
    rw [hd]; exact jsTruthy_some_ne hne
  have hgd : rep.district.getD "" = d := by rw [hd]; rfl
  have key : enrichOne csvLookup apiEmails rep =
      { csvLegislatorToContactInfo csvMatch with
        name := rep.name
        website := jsOr rep.website (csvLegislatorToContactInfo csvMatch).website
        district := jsOr rep.district (csvLegislatorToContactInfo csvMatch).district
        email := jsOr (apiEmailGet apiEmails rep.district)
          (jsOr (csvLegislatorToContactInfo csvMatch).email (jsOr rep.email none))
        phone := jsOr (csvLegislatorToContactInfo csvMatch).phone (jsOr rep.phone none)
        address := jsOr (csvLegislatorToContactInfo csvMatch).address
          (jsOr rep.address none) } := by
    simp [enrichOne, htr, hgd, hlook, hfind]
  refine ⟨?_, ?_, ?_, ?_⟩
  · simp [enrichReps, enrichRepsGo, assocGet, List.find?, assocSet]
  · rw [key]
  · intro hp
    rw [key]
    have : (csvLegislatorToContactInfo csvMatch).phone = some csvMatch.phone := by
      simp [csvLegislatorToContactInfo, jsOr, jsTruthy, hp]
    simp [this, jsOr, jsTruthy, hp]
  · intro ha
    rw [key]
    have : (csvLegislatorToContactInfo csvMatch).address = some csvMatch.address := by
      simp [csvLegislatorToContactInfo, jsOr, jsTruthy, ha]
    simp [this, jsOr, jsTruthy, ha]

/-- c1peters is a reference-snapshot row for CA-50. -/
def c1peters : CSVLegislator :=
  { last_name := "Peters", first_name := "Scott", full_name := "Scott H. Peters",
    state := "CA", district := "50", party := "Democrat",
    url := "https://scottpeters.house.gov",
    address := "1201 Longworth House Office Building Washington DC 20515-0550",
    phone := "202-225-0508" }

/-- c1rep is the directory-source candidate for CA-50. -/
def c1rep : ContactInfo :=
  { name := "Scott Peters", role := "Member of the House of Representatives",
    district := some "CA-50", party := some "Democrat" }

/-- C1 witness: the emitted record displays the house.gov name while
phone and address come from the reference row. -/
theorem usa_enrichment_name_precedence_app :
    enrichReps [c1rep] [("CA-50", [c1peters])] [] =
      [enrichOne [("CA-50", [c1peters])] [] c1rep] ∧
    (enrichOne [("CA-50", [c1peters])] [] c1rep).name = "Scott Peters" ∧
    (enrichOne [("CA-50", [c1peters])] [] c1rep).phone = some "202-225-0508" ∧
    (enrichOne [("CA-50", [c1peters])] [] c1rep).address =
      some "1201 Longworth House Office Building Washington DC 20515-0550" := by
  have h := usa_enrichment_name_precedence [("CA-50", [c1peters])] [] c1rep "CA-50"
    [c1peters] c1peters rfl (by decide) (by decide) (by decide)
  exact ⟨h.1, h.2.1, h.2.2.1 (by decide), h.2.2.2 (by decide)⟩

/-! C2 — email precedence and the no-reference-match case. -/

/-- c2rep is a directory candidate for CA-50 with no email. -/
def c2rep : ContactInfo :=
  { name := "Scott Peters", role := "Member of the House of Representatives",
    district := some "CA-50" }

/-- C2 counterexample: the reference index has no entry at all for
CA-50 (so the candidate has no matching reference entry) and the
structured API collected "rep@example.com" for CA-50, yet the record is
emitted entirely as-is with a null email — the structured-API email is
not preferred, contrary to the claim. -/
theorem usa_email_nomatch_counterexample :
    enrichReps [c2rep] [] [("CA-50", "rep@example.com")] = [c2rep] ∧
    c2rep.email = none := by
  refine ⟨by decide, rfl⟩

/-- C2 amended: in the enrichment branch the email of a reference-
matched record is chosen API-first, then reference, then directory;
when the subdivision key is present in the reference index but no entry
matches the name, a truthy structured-API email is still applied (and
the record is otherwise unchanged); but when the reference index has no
entry for the subdivision key, the candidate is emitted entirely as-is
and the structured-API email is not applied. -/
theorem usa_email_precedence (csvLookup : RepresentativeLookup)
    (apiEmails : ApiEmails) (rep : ContactInfo) (d : String)
    (hd : rep.district = some d) (hne : d ≠ "") :
    (∀ csvList csvMatch,
      assocGet csvLookup (csvKeyOfDistrict d) = some csvList →
      csvList.find? (csvNameMatch rep.name) = some csvMatch →
      (jsTruthy (apiEmailGet apiEmails rep.district) = true →
        (enrichOne csvLookup apiEmails rep).email =
          apiEmailGet apiEmails rep.district) ∧
      (jsTruthy (apiEmailGet apiEmails rep.district) = false →
        jsTruthy (csvLegislatorToContactInfo csvMatch).email = true →
        (enrichOne csvLookup apiEmails rep).email =
          (csvLegislatorToContactInfo csvMatch).email) ∧
      (jsTruthy (apiEmailGet apiEmails rep.district) = false →
        jsTruthy (csvLegislatorToContactInfo csvMatch).email = false →
        (enrichOne csvLookup apiEmails rep).email = jsOr rep.email none)) ∧
    (∀ csvList,
      assocGet csvLookup (csvKeyOfDistrict d) = some csvList →
      csvList.find? (csvNameMatch rep.name) = none →
      (jsTruthy (apiEmailGet apiEmails rep.district) = true →
        enrichOne csvLookup apiEmails rep =
          { rep with email := apiEmailGet apiEmails rep.district }) ∧
      (jsTruthy (apiEmailGet apiEmails rep.district) = false →
        enrichOne csvLookup apiEmails rep = rep)) ∧
    (assocGet csvLookup (csvKeyOfDistrict d) = none →
      enrichOne csvLookup apiEmails rep = rep) := by
  have htr : jsTruthy rep.district = true := by
    rw [hd]; exact jsTruthy_some_ne hne
  have hgd : rep.district.getD "" = d := by rw [hd]; rfl
  refine ⟨?_, ?_, ?_⟩
  · intro csvList csvMatch hlook hfind
    have key : (enrichOne csvLookup apiEmails rep).email =
        jsOr (apiEmailGet apiEmails rep.district)
          (jsOr (csvLegislatorToContactInfo csvMatch).email (jsOr rep.email none)) := by
      simp [enrichOne, htr, hgd, hlook, hfind]
    refine ⟨?_, ?_, ?_⟩
    · intro hapi
      rw [key]; simp [jsOr, hapi]
    · intro hapi hcsv
      rw [key]; simp [jsOr, hapi, hcsv]
    · intro hapi hcsv
      rw [key]; simp [jsOr, hapi, hcsv]
  · intro csvList hlook hfind
    refine ⟨?_, ?_⟩
    · intro hapi
      simp [enrichOne, htr, hgd, hlook, hfind, hapi]
    · intro hapi
      simp [enrichOne, htr, hgd, hlook, hfind, hapi]
  · intro hlook
    simp [enrichOne, htr, hgd, hlook]

/-- c2jones is a reference row for CA-50 that does not match the
candidate's name. -/
def c2jones : CSVLegislator :=
  { last_name := "Jones", first_name := "Mary", full_name := "Mary Jones",
    state := "CA", district := "50" }

/-- C2 witness: with the CA-50 key present but no name match, the
structured-API email is applied to the otherwise unchanged record. -/
theorem usa_email_precedence_app :
    enrichOne [("CA-50", [c2jones])] [("CA-50", "rep@example.com")] c2rep =
      { c2rep with email := some "rep@example.com" } := by
  have h := usa_email_precedence [("CA-50", [c2jones])]
    [("CA-50", "rep@example.com")] c2rep "CA-50" rfl (by decide)
  exact (h.2.1 [c2jones] (by decide) (by decide)).1 (by decide)

/-! C5 — fallback trigger. -/

theorem usa_trace_shape (zipCode : String) (cache : HGCache)
    (csvLookup : RepresentativeLookup) (w : UsaWorld)
    (hv : (validateUSZipCode zipCode).1 = true) :
    (lookupUSARepresentativeWithDetails zipCode cache csvLookup w).2.1 =
      (if (lookupHouseGovByZip cache (validateUSZipCode zipCode).2 w.scraped).2.2
        then [SourceCall.houseGovFetch] else []) ++ [SourceCall.structuredApi] ++
      (match w.api with
       | .thrown m n => if isNetworkError m n then [SourceCall.fallbackApi] else []
       | _ => []) := by
  obtain ⟨scraped, api, fbo⟩ := w
  cases api with
  | ok repsData =>
      simp only [lookupUSARepresentativeWithDetails, hv]
      split
      · simp_all
      · dsimp only
        split_ifs <;> simp
  | notFound =>
      simp only [lookupUSARepresentativeWithDetails, hv]
      split
      · simp_all
      · simp
  | httpError status statusText =>
      simp only [lookupUSARepresentativeWithDetails, hv]
      split
      · simp_all
      · simp
  | thrown message name =>
      simp only [lookupUSARepresentativeWithDetails, hv]
      split
      · simp_all
      · dsimp only
        by_cases hn : isNetworkError message name = true
        · simp only [hn, if_true]
          cases fbo with
          | ok fbReps =>
              dsimp only
              split_ifs <;> simp
          | httpFail => simp
          | thrown fmsg => simp
        · simp only [Bool.not_eq_true] at hn
          simp [hn]

/-- C5: when the structured API raises a network/CORS-class error (per
the code's own classifier), the 5 Calls fallback source is invoked
exactly once; when the structured API merely yields no match — an HTTP
404 or a response whose entry list is arbitrary (in particular empty) —
the fallback source is never invoked. -/
theorem usa_fallback_trigger (zipCode : String) (cache : HGCache)
    (csvLookup : RepresentativeLookup) (scraped : List ContactInfo)
    (fbo : FallbackOutcome) (hv : (validateUSZipCode zipCode).1 = true) :
    (∀ message name, isNetworkError message name = true →
      ((lookupUSARepresentativeWithDetails zipCode cache csvLookup
        ⟨scraped, .thrown message name, fbo⟩).2.1).count SourceCall.fallbackApi = 1) ∧
    (((lookupUSARepresentativeWithDetails zipCode cache csvLookup
        ⟨scraped, .notFound, fbo⟩).2.1).count SourceCall.fallbackApi = 0) ∧
    (∀ repsData, ((lookupUSARepresentativeWithDetails zipCode cache csvLookup
        ⟨scraped, .ok repsData, fbo⟩).2.1).count SourceCall.fallbackApi = 0) := by
  refine ⟨?_, ?_, ?_⟩
  · intro message name hn
    rw [usa_trace_shape zipCode cache csvLookup _ hv]
    dsimp only
    rw [hn]
    split <;> simp [List.count_append]
  · rw [usa_trace_shape zipCode cache csvLookup _ hv]
    split <;> simp [List.count_append]
  · intro repsData
    rw [usa_trace_shape zipCode cache csvLookup _ hv]
    split <;> simp [List.count_append]

/-- C5 witness: for ZIP "90210", a thrown "Failed to fetch" triggers
exactly one fallback call; a 404 and an empty ok-response trigger none. -/
theorem usa_fallback_trigger_app :
    ((lookupUSARepresentativeWithDetails "90210" [] []
      ⟨[], .thrown "Failed to fetch" "Error", .httpFail⟩).2.1).count
        SourceCall.fallbackApi = 1 ∧
    ((lookupUSARepresentativeWithDetails "90210" [] []
      ⟨[], .notFound, .httpFail⟩).2.1).count SourceCall.fallbackApi = 0 ∧
    ((lookupUSARepresentativeWithDetails "90210" [] []
      ⟨[], .ok [], .httpFail⟩).2.1).count SourceCall.fallbackApi = 0 := by
  have h := usa_fallback_trigger "90210" [] [] [] .httpFail (by decide)
  exact ⟨h.1 "Failed to fetch" "Error" (by decide), h.2.1, h.2.2 []⟩

/-! C7 — emitted-record field invariants. -/

theorem jsOr_ne_some_empty (a b : Option String) (hb : b ≠ some "") :
    jsOr a b ≠ some "" := by
  unfold jsOr
  split
  · rename_i h
    cases a with
    | none => simp [jsTruthy] at h
    | some s =>
        simp [jsTruthy] at h
        simp [h]
  · exact hb

theorem jsStrOr_ne_empty (a : Option String) (d : String) (hd : d ≠ "") :
    jsStrOr a d ≠ "" := by
  cases a with
  | none => simpa [jsStrOr] using hd
  | some s => by_cases h : s = "" <;> simp [jsStrOr, h, hd]

theorem jsTruthy_ne_some_empty (e : Option String) (h : jsTruthy e = true) :
    e ≠ some "" := by
  cases e with
  | none => simp
  | some s =>
      simp [jsTruthy] at h
      simp [h]

/-- c7world is a world where the Represent API returns one federal MP
entry that carries a name but no riding information. -/
def c7world : CanWorld :=
  { represent := .ok { representatives_centroid :=
      [{ elected_office := some "Member of Parliament", name := some "Jane Doe" }] }
    op := fun _ => none
    boundary := fun _ => none }

/-- c7dataB is a Represent response with no representative entries but
one boundary reference. -/
def c7dataB : RepresentData :=
  { boundaries_centroid := [{ boundary_set_name := some "federal-electoral-districts" }] }

/-- c7worldB is a world where the Canada main loop finds nothing and
the boundary fallback returns one federal entry that carries no name. -/
def c7worldB : CanWorld :=
  { represent := .ok c7dataB
    op := fun _ => none
    boundary := fun _ => some [{ elected_office := some "Member of Parliament" }] }

/-- c7csv is a reference dataset whose single representative row has
every name field empty. -/
def c7csv : String :=
  "last_name,first_name,middle_name,suffix,nickname,full_name,type,state,district,party,url,address,phone,contact_form\n,,,,,,rep,CA,50,Democrat,,,,"

/-- c7usWorld is a world whose structured API maps the ZIP to CA-50 and
whose directory scrape finds nothing. -/
def c7usWorld : UsaWorld :=
  { scraped := []
    api := .ok [{ state := some "CA", district := some "50" }]
    fallback := .httpFail }

/-- C7 counterexample: three emitted records refute the claim. For
postal code "K1A 0A6" the Canada main branch emits a record whose
riding — the jurisdiction label — is the empty string rather than null
although its value is unknown (`ridingName || (mpDetails?.riding ||
'')` bottoms out at the empty string); the Canada boundary fallback
emits a record whose required name is the empty string when its source
entry carries no name (`name: rep.name || ''`); and the US pipeline's
reference emission for ZIP "90210" produces a record with an empty name
from a reference row whose name fields are all empty. -/
theorem contact_invariants_counterexample :
    ((lookupCanadaMP "K1A 0A6" c7world).1 =
      .ok [({ name := "Jane Doe", role := "Member of Parliament",
              riding := some "" } : ContactInfo)] ∧
     (some ("" : String)) ≠ (none : Option String)) ∧
    (lookupCanadaMP "K1A 0A6" c7worldB).1 =
      .ok [({ name := "", role := "Member of Parliament",
              riding := some "" } : ContactInfo)] ∧
    (lookupUSARepresentativeWithDetails "90210" [] (parseLegislatorsCSV c7csv)
        c7usWorld).1 =
      .ok { representatives :=
              [({ name := "", role := "Member of the House of Representatives",
                  district := some "CA-50",
                  party := some "Democrat" } : ContactInfo)]
            apiErrors := none } := by
  refine ⟨⟨by rfl, by decide⟩, by rfl, by rfl⟩

/-- C7 amended: emitted records always carry a non-empty role, and the
optional fields party, email, website, phone and address are null,
never the empty string, when unknown — for the reference conversion,
both Canada constructors, and through the enrichment merge, which also
preserves the candidate's name; but the name is the empty string when
the source supplies none (a reference row with every name field empty;
a boundary-fallback entry without a name — the counterexample shows
both emitted), while a reference row with a full name, a boundary entry
with a name, and every main-branch Canada record have non-empty names;
and the Canada riding field is always a string — the empty string, not
null, when unknown (see the counterexample). -/
theorem contact_optional_fields_null :
    (∀ leg : CSVLegislator,
      (csvLegislatorToContactInfo leg).role ≠ "" ∧
      (leg.full_name ≠ "" → (csvLegislatorToContactInfo leg).name ≠ "") ∧
      (csvLegislatorToContactInfo leg).party ≠ some "" ∧
      (csvLegislatorToContactInfo leg).email ≠ some "" ∧
      (csvLegislatorToContactInfo leg).website ≠ some "" ∧
      (csvLegislatorToContactInfo leg).phone ≠ some "" ∧
      (csvLegislatorToContactInfo leg).address ≠ some "") ∧
    (∀ (rep : CanRep) (mpDetails : Option MPDetails),
      (canadaContactOf rep mpDetails).name ≠ "" ∧
      (canadaContactOf rep mpDetails).role ≠ "" ∧
      (canadaContactOf rep mpDetails).party ≠ some "" ∧
      (canadaContactOf rep mpDetails).email ≠ some "" ∧
      (canadaContactOf rep mpDetails).website ≠ some "" ∧
      (canadaContactOf rep mpDetails).phone ≠ some "" ∧
      (canadaContactOf rep mpDetails).address ≠ some "" ∧
      (∃ s, (canadaContactOf rep mpDetails).riding = some s)) ∧
    (∀ rep : CanRep,
      (boundaryContactOf rep).role ≠ "" ∧
      (jsTruthy rep.name = true → (boundaryContactOf rep).name ≠ "") ∧
      (boundaryContactOf rep).party ≠ some "" ∧
      (boundaryContactOf rep).email ≠ some "" ∧
      (boundaryContactOf rep).website ≠ some "" ∧
      (boundaryContactOf rep).phone ≠ some "" ∧
      (boundaryContactOf rep).address ≠ some "" ∧
      (∃ s, (boundaryContactOf rep).riding = some s)) ∧
    (∀ (csvLookup : RepresentativeLookup) (apiEmails : ApiEmails)
       (rep : ContactInfo),
      rep.role ≠ "" → rep.party ≠ some "" → rep.email ≠ some "" →
      rep.website ≠ some "" → rep.phone ≠ some "" → rep.address ≠ some "" →
      (enrichOne csvLookup apiEmails rep).name = rep.name ∧
      (enrichOne csvLookup apiEmails rep).role ≠ "" ∧
      (enrichOne csvLookup apiEmails rep).party ≠ some "" ∧
      (enrichOne csvLookup apiEmails rep).email ≠ some "" ∧
      (enrichOne csvLookup apiEmails rep).website ≠ some "" ∧
      (enrichOne csvLookup apiEmails rep).phone ≠ some "" ∧
      (enrichOne csvLookup apiEmails rep).address ≠ some "") := by
  refine ⟨?_, ?_, ?_, ?_⟩
  · intro leg
    refine ⟨by simp [csvLegislatorToContactInfo], ?_, ?_, ?_, ?_, ?_, ?_⟩
    · intro hfull
      simp [csvLegislatorToContactInfo, hfull]
    · exact jsOr_ne_some_empty _ _ (by simp)
    · simp [csvLegislatorToContactInfo]
    · exact jsOr_ne_some_empty _ _ (jsOr_ne_some_empty _ _ (by simp))
    · exact jsOr_ne_some_empty _ _ (by simp)
    · exact jsOr_ne_some_empty _ _ (by simp)
  · intro rep mpDetails
    refine ⟨?_, ?_, ?_, ?_, ?_, ?_, ?_, ?_⟩
    · show (if jsStrOr rep.name "" ≠ "" then jsStrOr rep.name "" else _) ≠ ""
      split
      · assumption
      · exact jsStrOr_ne_empty _ _ (by decide)
    · simp [canadaContactOf]
    · show (if _ ≠ "" then some _ else none) ≠ some ""
      split
      · simp
        assumption
      · simp
    · exact jsOr_ne_some_empty _ _ (jsOr_ne_some_empty _ _ (by simp))
    · exact jsOr_ne_some_empty _ _ (jsOr_ne_some_empty _ _
        (jsOr_ne_some_empty _ _ (by simp)))
    · exact jsOr_ne_some_empty _ _ (jsOr_ne_some_empty _ _
        (jsOr_ne_some_empty _ _ (by simp)))
    · exact jsOr_ne_some_empty _ _ (jsOr_ne_some_empty _ _ (by simp))
    · exact ⟨_, rfl⟩
  · intro rep
    refine ⟨by simp [boundaryContactOf], ?_, ?_, ?_, ?_, ?_, ?_, ⟨_, rfl⟩⟩
    · intro h
      cases hn : rep.name with
      | none => rw [hn] at h; simp [jsTruthy] at h
      | some s =>
          rw [hn] at h
          simp [jsTruthy] at h
          simp [boundaryContactOf, hn, jsStrOr, h]
    · exact jsOr_ne_some_empty _ _ (by simp)
    · exact jsOr_ne_some_empty _ _ (by simp)
    · exact jsOr_ne_some_empty _ _ (by simp)
    · exact jsOr_ne_some_empty _ _ (by simp)
    · simp [boundaryContactOf]
  · intro csvLookup apiEmails rep hrole hp he hw hph ha
    by_cases htr : jsTruthy rep.district = true
    · rcases hl : assocGet csvLookup (csvKeyOfDistrict (rep.district.getD "")) with
        _ | csvList
      · simp only [enrichOne, htr, if_true, hl]
        exact ⟨by simp, hrole, hp, he, hw, hph, ha⟩
      · rcases hf : csvList.find? (csvNameMatch rep.name) with _ | csvMatch
        · by_cases happi : jsTruthy (apiEmailGet apiEmails rep.district) = true
          · simp only [enrichOne, htr, if_true, hl, hf, happi]
            exact ⟨by simp, hrole, hp,
              jsTruthy_ne_some_empty _ happi, hw, hph, ha⟩
          · simp only [Bool.not_eq_true] at happi
            simp only [enrichOne, htr, if_true, hl, hf, happi, Bool.false_eq_true,
              if_false]
            exact ⟨by simp, hrole, hp, he, hw, hph, ha⟩
        · simp only [enrichOne, htr, if_true, hl, hf]
          refine ⟨by simp, by simp [csvLegislatorToContactInfo], ?_, ?_, ?_, ?_, ?_⟩
          · exact jsOr_ne_some_empty _ _ (by simp)
          · exact jsOr_ne_some_empty _ _ (jsOr_ne_some_empty _ _
              (jsOr_ne_some_empty _ _ (by simp)))
          · exact jsOr_ne_some_empty _ _
              (jsOr_ne_some_empty _ _ (jsOr_ne_some_empty _ _ (by simp)))
          · exact jsOr_ne_some_empty _ _ (jsOr_ne_some_empty _ _ (by simp))
          · exact jsOr_ne_some_empty _ _ (jsOr_ne_some_empty _ _ (by simp))
    · simp only [Bool.not_eq_true] at htr
      simp only [enrichOne, htr, Bool.false_eq_true, if_false]
      exact ⟨by simp, hrole, hp, he, hw, hph, ha⟩

/-- C7 witness: a reference row with a full name and a boundary entry
with a name yield non-empty display names, and the enrichment merge of
a clean candidate keeps its email null-not-empty. -/
theorem contact_optional_fields_null_app :
    (csvLegislatorToContactInfo
      { full_name := "John Smith", state := "CA" }).name ≠ "" ∧
    (boundaryContactOf { elected_office := some "Member of Parliament", name := some "Jane Doe" }).name ≠ "" ∧
    (enrichOne [] [] ({ name := "Scott Peters",
                        role := "Member of the House of Representatives",
                        district := some "CA-50" } : ContactInfo)).email ≠ some "" :=
  ⟨(contact_optional_fields_null.1 { full_name := "John Smith", state := "CA" }).2.1
      (by decide),
   ((contact_optional_fields_null.2.2.1 { elected_office := some "Member of Parliament", name := some "Jane Doe" }).2.1 (by decide)),
   (contact_optional_fields_null.2.2.2 [] [] _ (by decide) (by decide) (by decide)
      (by decide) (by decide) (by decide)).2.2.2.1⟩

/-! C8 — validator normalization. -/

/-- C8 counterexample: the US validator accepts "A1B2C3D4E5" and
normalizes it to "12345", although the letter A is an alphanumeric
character of the raw input and is not preserved in the normalized code
— the validator strips every non-digit, not only separators. -/
theorem us_validator_drops_alnum_counterexample :
    validateUSZipCode "A1B2C3D4E5" = (true, "12345") ∧
    ('A' ∈ "A1B2C3D4E5".data ∧ Char.isAlphanum 'A' = true) ∧
    'A' ∉ "12345".data := by
  refine ⟨by decide, by decide, by decide⟩

theorem isAlphanum_not_sep (c : Char) (h : c.isAlphanum = true) :
    c.isWhitespace = false ∧ c ≠ '-' := by
  constructor
  · by_contra hw
    rw [Bool.not_eq_false] at hw
    have hcases : ((c = ' ' ∨ c = '\t') ∨ c = '\r') ∨ c = '\n' := by
      simpa [Char.isWhitespace] using hw
    rcases hcases with ((h1 | h1) | h1) | h1 <;>
      (subst h1; exact absurd h (by decide))
  · intro he
    subst he
    exact absurd h (by decide)

/-- C8 amended: the Canadian validator strips only whitespace and
hyphens and uppercases, so it preserves (the uppercase image of) every
alphanumeric character of the raw input in the normalized code it
returns; the US validator instead keeps exactly the decimal digits and
truncates the accepted canonical code to the first five of them, so
non-digit alphanumerics and digits past the fifth are dropped (see the
counterexample). -/
theorem validator_normalization :
    (∀ postalCode : String,
      (validateCanadianPostalCode postalCode).2 = canadaNormalize postalCode) ∧
    (∀ (postalCode : String) (c : Char), c ∈ postalCode.data →
      c.isAlphanum = true → c.toUpper ∈ (canadaNormalize postalCode).data) ∧
    (∀ zipCode : String, (validateUSZipCode zipCode).1 = true →
      (validateUSZipCode zipCode).2 =
        String.mk ((zipCode.data.filter Char.isDigit).take 5)) := by
  refine ⟨?_, ?_, ?_⟩
  · intro pc
    unfold validateCanadianPostalCode
    dsimp only
    split
    · rfl
    · split
      · split_ifs <;> rfl
      · rfl
  · intro pc c hc ha
    obtain ⟨hw, hdash⟩ := isAlphanum_not_sep c ha
    show c.toUpper ∈ ((pc.data.filter _).map Char.toUpper)
    refine List.mem_map_of_mem _ (List.mem_filter.mpr ⟨hc, ?_⟩)
    simp [hw, hdash]
  · have hsh : ∀ z : String, (validateUSZipCode z).1 = false ∨
        (validateUSZipCode z).2 = String.mk ((z.data.filter Char.isDigit).take 5) := by
      intro z
      unfold validateUSZipCode
      dsimp only
      split
      · exact Or.inl rfl
      · split
        · exact Or.inl rfl
        · split
          · exact Or.inl rfl
          · exact Or.inr rfl
    intro z hv
    rcases hsh z with h | h
    · rw [h] at hv
      exact absurd hv (by decide)
    · exact h

/-- C8 witness: the Canadian input "k1a 0a6" preserves its letters
uppercased, and the valid US input "90210-1234" normalizes to its first
five digits. -/
theorem validator_normalization_app :
    'k'.toUpper ∈ (canadaNormalize "k1a 0a6").data ∧
    (validateUSZipCode "90210-1234").2 =
      String.mk (("90210-1234".data.filter Char.isDigit).take 5) :=
  ⟨validator_normalization.2.1 "k1a 0a6" 'k' (by decide) (by decide),
   validator_normalization.2.2 "90210-1234" (by decide)⟩

/-! C9 — missing header columns. -/

/-- c9csv is a dataset whose header lacks the district column but keeps
every other expected column. -/
def c9csv : String :=
  "last_name,first_name,middle_name,suffix,nickname,full_name,type,state,party,url,address,phone,contact_form\nSmith,John,,,,John Smith,rep,CA,Democrat,,,,"

/-- C9 counterexample: with the district header missing, parsing does
not crash but also does not yield an empty index — the row is still
indexed, under the at-large key "CA-0", with the district defaulted. -/
theorem parse_missing_district_counterexample :
    ((headerCols c9csv).all (fun col => strLower col ≠ "district")) = true ∧
    parseLegislatorsCSV c9csv =
      [("CA-0", [CSVLegislator.mk "Smith" "John" "" "" "" "John Smith" "rep"
        "CA" "0" "Democrat" "" "" "" ""])] := by
  refine ⟨by decide, by rfl⟩

theorem parseLegislatorsRow_skip (hidx : HeaderIdx) (hty : hidx.typeIdx = -1)
    (lookup : RepresentativeLookup) (line : String) :
    parseLegislatorsRow hidx lookup line = lookup := by
  unfold parseLegislatorsRow
  dsimp only
  split
  · rfl
  · split
    · rfl
    · simp [hty, getFieldInt]

theorem foldl_parseLegislatorsRow_skip (hidx : HeaderIdx) (hty : hidx.typeIdx = -1) :
    ∀ (ls : List String) (lookup : RepresentativeLookup),
      ls.foldl (parseLegislatorsRow hidx) lookup = lookup := by
  intro ls
  induction ls with
  | nil => intro lookup; rfl
  | cons l rest ih =>
      intro lookup
      simp [List.foldl_cons, parseLegislatorsRow_skip hidx hty, ih]

/-- C9 amended: parsing never crashes on a missing header; when the
type header is the one missing (resolved case-insensitively to index
-1) the index is empty, because no row can be classified as a
representative; but a missing district header still yields a populated
index with the district defaulted (see the counterexample). -/
theorem parse_missing_type_header_empty (legislatorsCSV : String)
    (h : getColumnIndex (headerCols legislatorsCSV) "type" = -1) :
    parseLegislatorsCSV legislatorsCSV = [] := by
  unfold parseLegislatorsCSV
  cases hsplit : strSplitOnChar '\n' legislatorsCSV with
  | nil => simp [hsplit]
  | cons headerLine dataLines =>
      have hcols : headerCols legislatorsCSV = strSplitOnChar ',' headerLine := by
        simp [headerCols, hsplit]
      rw [hcols] at h
      simp only [hsplit]
      split
      · rfl
      · exact foldl_parseLegislatorsRow_skip _ (by simpa [headerIdxOf] using h) _ _

/-- C9 witness: a dataset whose header lacks the type column parses to
the empty index. -/
theorem parse_missing_type_header_empty_app :
    parseLegislatorsCSV "last_name,state\nSmith,CA" = [] :=
  parse_missing_type_header_empty "last_name,state\nSmith,CA" (by decide)

end Zip2Rep
